import Mathlib

/-!
Verification development for the eYs3D 80363 (ORANGE chip) wrapper layer:
endpoint routing by action category, the interleave-mode (ILM) frame
router with its bounded blocking channels, the stream-session state
machine, the ZD calibration-table derivation, and the Frame buffer-swap
helper.

The repository ships headers only; where a method body is absent, the
corresponding definition here is modelled from the specification and from
the documentation comments of the headers, and is marked as such in its
doc comment.  Machine integers are modelled as Nat with explicit
reductions modulo 2 to the 16 where 16-bit overflow matters.
-/

namespace libeYs3D

/-! ## Status codes

Modelled from the spec: the numeric values of the eSPDI status codes are
declared in eSPDI.h, which is not part of the provided sources; only the
success sentinel and the distinctness of the failure codes matter here
(spec section 6: one success sentinel and a closed set of failure codes
including a distinct no-calibration-data code). -/

/-- Success sentinel of the SDK status codes. -/
def APC_OK : Int := 0

/-- Configuration / initialization failure code (distinct from APC_OK). -/
def APC_Init_Fail : Int := 1

/-- Distinct failure code returned when no calibration or point-cloud
data is available for the device. -/
def APC_NO_CALIBRATION_LOG : Int := 2

/-- Malformed-data failure code for calibration data that is present
but unusable, such as a zero disparity-to-world sample; spec sections
4.5 and 7 keep it distinct from the no-calibration-data code. -/
def APC_ILLEGAL_DATA : Int := 3

/-! ## ActionCategory and endpoint routing (src/include/devices/ActionCategory.h,
src/include/devices/CameraDevice_80363.h) -/

/-- Closed enumeration of action categories used as the key for endpoint
selection, transcribed from ActionCategory.h lines 29 to 41. -/
inductive ActionCategory
  | DEVICE_INFO
  | CALIBRATION
  | CAMERA_PROPERTY
  | IR_CONTROL
  | STREAMING
  | STREAMING_MONO
  | STREAMING_HARDWARE_ACCESS
  | ASIC_ACCESS
  | FRAME_COLOR
  | FRAME_DEPTH
  | FRAME_PROCESS
deriving DecidableEq, Repr

/-- Endpoint index constant for base+0 (CameraDevice_80363.h line 188). -/
def INDEX_COLOR_PATH0 : Nat := 0

/-- Endpoint index constant for base+1, the primary control path
(CameraDevice_80363.h line 189). -/
def INDEX_COLOR_PATH1 : Nat := 1

/-- Endpoint index constant for base+2, the depth/IR path
(CameraDevice_80363.h line 190). -/
def INDEX_MONO_PATH : Nat := 2

/-- Category to endpoint resolution of CameraDevice80363.  The method
body is not in the provided sources; this definition is modelled from
the routing contract documented on the override itself
(CameraDevice_80363.h lines 196 to 204): DEVICE_INFO to base+0;
CALIBRATION, CAMERA_PROPERTY, STREAMING, FRAME_COLOR to base+1;
IR_CONTROL, FRAME_DEPTH to base+2; hardware register access is
documented as defaulting to base+1, which this model applies to the
categories the documentation does not list explicitly.  A DEVSELINFO
pointer is modelled as the endpoint index it addresses; the function is
total, so no category ever resolves to a null pointer. -/
def getDeviceInfoByCategory : ActionCategory → Nat
  | ActionCategory.DEVICE_INFO => INDEX_COLOR_PATH0
  | ActionCategory.CALIBRATION => INDEX_COLOR_PATH1
  | ActionCategory.CAMERA_PROPERTY => INDEX_COLOR_PATH1
  | ActionCategory.STREAMING => INDEX_COLOR_PATH1
  | ActionCategory.FRAME_COLOR => INDEX_COLOR_PATH1
  | ActionCategory.IR_CONTROL => INDEX_MONO_PATH
  | ActionCategory.FRAME_DEPTH => INDEX_MONO_PATH
  | _ => INDEX_COLOR_PATH1

/-! ## Frame (src/include/video/Frame.h) -/

/-- Frame data container, transcribed from Frame.h.  Buffers are byte
and sample lists; the SensorDataSet member and the extra union are
opaque to this subsystem and are modelled as opaque scalars; fields of
the GeneralFrame base class are outside the provided sources and are
not modelled. -/
structure Frame where
  tsUs : Int
  serialNumber : Nat
  width : Int
  height : Int
  actualDataBufferSize : Nat
  dataBufferSize : Nat
  nDevType : Nat
  nZDTableSize : Int
  nZDTable : List Nat
  processedBufferSize : Nat
  dataVec : List Nat
  actualZDDepthBufferSize : Nat
  zdDepthBufferSize : Nat
  zdDepthVec : List Nat
  actualRGBBufferSize : Nat
  rgbBufferSize : Nat
  rgbVec : List Nat
  dataFormat : Nat
  rgbFormat : Nat
  rgbTranscodingTimeUs : Int
  filteringTimeUs : Int
  sensorDataSet : Nat
  roiDepth : Int
  roiZValue : Int
  extra : Nat
  toCallback : Bool
  toPCCallback : Bool
  interleaveMode : Bool
deriving DecidableEq, Repr

/-- High-performance buffer swap, transcribed from Frame.h lines 103 to
108: swaps exactly the three vector buffers dataVec, zdDepthVec and
rgbVec between the two frames and touches no metadata.  The C++ method
mutates both frames in place; it is modelled as returning the pair of
updated frames. -/
def Frame.swapBuffersOnly (a other : Frame) : Frame × Frame :=
  ({ a with dataVec := other.dataVec,
            zdDepthVec := other.zdDepthVec,
            rgbVec := other.rgbVec },
   { other with dataVec := a.dataVec,
                zdDepthVec := a.zdDepthVec,
                rgbVec := a.rgbVec })

/-! ## ILM frame router (src/include/video/ILMFrameRouter.h)

The reader-loop and routing method bodies are not in the provided
sources; the machine below is modelled from the spec (sections 4.3 and
4.4) and from the architecture, routing and error-handling contract
documented in ILMFrameRouter.h lines 24 to 48.  A frame in transit is
identified by its serial number. -/

/-- A routed frame goes to the color consumer or to the depth consumer. -/
inductive RouteTarget
  | color
  | depth
deriving DecidableEq, Repr

/-- Parity routing rule (ILMFrameRouter.h lines 35 to 37): odd serial
numbers go to the ColorFrameProducer, even serial numbers to the
DepthFrameProducer.  Modelled from the spec and the header contract,
the routeFrame body being absent from the sources. -/
def routeFrame (serial : Nat) : RouteTarget :=
  if serial % 2 = 1 then RouteTarget.color else RouteTarget.depth

/-- One outcome of a blocking endpoint read: a frame with its serial
number, or a transient I/O failure. -/
inductive ReadResult
  | ok (serial : Nat)
  | ioError
deriving DecidableEq, Repr

/-- Bounded blocking channel of frame ownership transfers, modelled from
the spec (section 4.4, MessageChannel): fixed capacity, send blocks
while full, close wakes blocked callers which then observe a
channel-closed condition. -/
structure Channel where
  buf : List Nat
  cap : Nat
  closed : Bool
deriving DecidableEq, Repr

/-- Outcome of one attempt of the blocking send: delivered with the new
channel state, would block because the channel is full (the sender
stays blocked holding the frame), or the channel is closed. -/
inductive SendOutcome
  | delivered (c : Channel)
  | wouldBlock
  | closedChan
deriving DecidableEq, Repr

/-- One attempt of the blocking channel send, modelled from the spec
(section 4.4): a send on a closed channel fails with the channel-closed
condition; a send on a full channel blocks and never drops; otherwise
the frame is appended in order. -/
def channelTrySend (c : Channel) (serial : Nat) : SendOutcome :=
  if c.closed then SendOutcome.closedChan
  else if c.cap ≤ c.buf.length then SendOutcome.wouldBlock
  else SendOutcome.delivered { c with buf := c.buf ++ [serial] }

/-- Maximum number of consecutive transient routing failures before the
reader loop terminates fatally (ILMFrameRouter.h line 138). -/
def MAX_CONSECUTIVE_FAILURES : Nat := 100

/-- State of the ILM reader loop together with its two consumer
channels and, for accounting, the frames the consumers have drained and
the frames returned to the shared pool during shutdown. -/
structure RouterState where
  colorChan : Channel
  depthChan : Channel
  drainedColor : List Nat
  drainedDepth : List Nat
  pending : Option Nat
  reads : List ReadResult
  failures : Nat
  ioDrops : Nat
  returnedToPool : List Nat
  stopRequested : Bool
  stopped : Bool
  cleanShutdown : Bool
deriving DecidableEq, Repr

/-- Routing part of one iteration of the reader loop: the staged frame
is sent to the channel chosen by routeFrame - the send blocks while the
channel is full (the loop stays inside the send, so the stop flag is
not observed there) and a closed channel wakes the send into a clean
shutdown that returns the frame to the pool; a successful route resets
the consecutive-failure counter to zero. -/
def routeStep (s : RouterState) (f : Nat) : RouterState :=
  match routeFrame f with
  | RouteTarget.color =>
      match channelTrySend s.colorChan f with
      | SendOutcome.closedChan =>
          { s with pending := none, stopped := true, cleanShutdown := true,
                   returnedToPool := s.returnedToPool ++ [f] }
      | SendOutcome.wouldBlock => s
      | SendOutcome.delivered c =>
          { s with colorChan := c, pending := none, failures := 0 }
  | RouteTarget.depth =>
      match channelTrySend s.depthChan f with
      | SendOutcome.closedChan =>
          { s with pending := none, stopped := true, cleanShutdown := true,
                   returnedToPool := s.returnedToPool ++ [f] }
      | SendOutcome.wouldBlock => s
      | SendOutcome.delivered c =>
          { s with depthChan := c, pending := none, failures := 0 }

/-- Loop-boundary part of one iteration, reached only with no staged
frame: the stop request is observed here; otherwise the next endpoint
read outcome is consumed - a successful read stages the frame, a
transient failure recycles the buffer, bumps the consecutive-failure
counter and stops the loop exactly when the counter reaches
MAX_CONSECUTIVE_FAILURES. -/
def readStep (s : RouterState) : RouterState :=
  if s.stopRequested then
    { s with stopped := true, cleanShutdown := true }
  else
    match s.reads with
    | [] => s
    | ReadResult.ok serial :: rest =>
        { s with pending := some serial, reads := rest }
    | ReadResult.ioError :: rest =>
        { s with reads := rest, failures := s.failures + 1,
                 ioDrops := s.ioDrops + 1,
                 stopped := decide (MAX_CONSECUTIVE_FAILURES ≤ s.failures + 1) }

/-- One iteration of the reader loop, modelled from the spec (section
4.3) and the header contract (ILMFrameRouter.h lines 24 to 48): once
stopped the loop does nothing; a frame already read but not yet
delivered goes through routeStep; otherwise the loop is at its boundary
and goes through readStep. -/
def routerIterate (s : RouterState) : RouterState :=
  if s.stopped then s
  else
    match s.pending with
    | some f => routeStep s f
    | none => readStep s

/-- Events of an interleave session: a reader-loop iteration, a consumer
draining one frame from its channel, closing both consumer channels,
and the non-blocking stop request (ILMFrameRouter.h lines 95 to 97). -/
inductive RouterAction
  | iterate
  | drainColor
  | drainDepth
  | closeChannels
  | requestStop
deriving DecidableEq, Repr

/-- Apply one event to the router state.  Draining takes the frame at
the head of the channel buffer; closing marks both channels closed so
that blocked sends wake. -/
def applyAction (s : RouterState) : RouterAction → RouterState
  | RouterAction.iterate => routerIterate s
  | RouterAction.drainColor =>
      match s.colorChan.buf with
      | [] => s
      | a :: rest =>
          { s with colorChan := { s.colorChan with buf := rest },
                   drainedColor := s.drainedColor ++ [a] }
  | RouterAction.drainDepth =>
      match s.depthChan.buf with
      | [] => s
      | a :: rest =>
          { s with depthChan := { s.depthChan with buf := rest },
                   drainedDepth := s.drainedDepth ++ [a] }
  | RouterAction.closeChannels =>
      { s with colorChan := { s.colorChan with closed := true },
               depthChan := { s.depthChan with closed := true } }
  | RouterAction.requestStop => { s with stopRequested := true }

/-- Run the router machine over a sequence of events. -/
def routerRun (s : RouterState) (acts : List RouterAction) : RouterState :=
  acts.foldl applyAction s

/-- Initial router state: empty channels of capacity cap, no staged
frame, a given schedule of endpoint read outcomes, counters at zero. -/
def initRouterState (reads : List ReadResult) (cap : Nat) : RouterState :=
  { colorChan := { buf := [], cap := cap, closed := false },
    depthChan := { buf := [], cap := cap, closed := false },
    drainedColor := [], drainedDepth := [],
    pending := none, reads := reads,
    failures := 0, ioDrops := 0, returnedToPool := [],
    stopRequested := false, stopped := false, cleanShutdown := false }

/-- Serial numbers of the successful reads of a schedule. -/
def okSerials : List ReadResult → List Nat
  | [] => []
  | ReadResult.ok serial :: rest => serial :: okSerials rest
  | ReadResult.ioError :: rest => okSerials rest

/-- Multiset of every successfully read frame the router state still
accounts for: in a consumer channel, drained by a consumer, staged for
routing, or returned to the shared pool at shutdown. -/
def inFlight (s : RouterState) : Multiset Nat :=
  (s.colorChan.buf : Multiset Nat) + (s.depthChan.buf : Multiset Nat)
    + (s.drainedColor : Multiset Nat) + (s.drainedDepth : Multiset Nat)
    + (s.pending.toList : Multiset Nat) + (s.returnedToPool : Multiset Nat)

/-- Frames observed on the color consumer side: still queued in the
color channel or already drained by the color consumer. -/
def colorSide (s : RouterState) : List Nat :=
  s.colorChan.buf ++ s.drainedColor

/-- Frames observed on the depth consumer side: still queued in the
depth channel or already drained by the depth consumer. -/
def depthSide (s : RouterState) : List Nat :=
  s.depthChan.buf ++ s.drainedDepth

/-- Parity discipline of the router: every frame on the color consumer
side carries an odd serial and every frame on the depth consumer side
an even serial. -/
def paritySides (s : RouterState) : Prop :=
  (∀ x ∈ colorSide s, x % 2 = 1) ∧ (∀ x ∈ depthSide s, x % 2 = 0)

/-- Concrete router state whose color channel is full (capacity 1,
one queued frame) while an odd frame is staged for routing; used to
exhibit backpressure on explicit inputs. -/
def stalledExample : RouterState :=
  { initRouterState [] 1 with
      colorChan := { buf := [1], cap := 1, closed := false },
      pending := some 3 }

/-- Concrete router state about to observe a transient read failure
with a given consecutive-failure count; used to exhibit the failure
ceiling on explicit inputs. -/
def failureExample (k : Nat) : RouterState :=
  { initRouterState [ReadResult.ioError] 4 with failures := k }

/-- Concrete router state with an odd frame staged for routing, room in
the color channel and a nonzero failure count; used to exhibit the
counter reset on explicit inputs. -/
def resetExample : RouterState :=
  { initRouterState [] 4 with pending := some 1, failures := 7 }

/-! ## Stream session state machine (src/include/devices/CameraDevice_80363.h)

The initStream, closeStream and enableStream bodies are not in the
provided sources; the transition functions below are modelled from the
spec (section 4.2) and from the mode enumeration, member documentation
and close-ordering contract of CameraDevice_80363.h. -/

/-- The streaming modes of the session state machine (spec section 3). -/
inductive StreamingMode
  | Idle
  | InterleaveMode
  | ColorOnly
  | DepthOnly
  | DualStream
deriving DecidableEq, Repr

/-- Interleave capability flag of a depth format value, modelled from
the initStream documentation (CameraDevice_80363.h line 67: ILM mode is
depthFormat 0x1A or 0x1B).  The mIsILMMode member comment instead
names 0x18 and 0x19; the initStream contract is followed here, and no
claim depends on the concrete values. -/
def isInterleaveFormat (depthFormat : Nat) : Bool :=
  depthFormat == 0x1A || depthFormat == 0x1B

/-- Session state of CameraDevice80363: current streaming mode, the ILM
flag, the depth-only flag, the two endpoint-opened flags used for
idempotent closeStream, the optional ILM frame router (unique_ptr
modelled as Option), and whether producer callbacks are enabled. -/
structure SessionState where
  mode : StreamingMode
  mIsILMMode : Bool
  mIsDepthOnlyMode : Bool
  mColorPath1Opened : Bool
  mMonoPathOpened : Bool
  mILMFrameRouter : Option Unit
  producersEnabled : Bool
deriving DecidableEq, Repr

/-- Initial (idle) session state: nothing open, no router, producers
disabled. -/
def initialSession : SessionState :=
  { mode := StreamingMode.Idle, mIsILMMode := false, mIsDepthOnlyMode := false,
    mColorPath1Opened := false, mMonoPathOpened := false,
    mILMFrameRouter := none, producersEnabled := false }

/-- True when the ILM shared free pool is in use, transcribed from
CameraDevice_80363.h lines 158 to 160: returns whether the
mILMFrameRouter pointer is non-null. -/
def isUsingILMSharedPool (s : SessionState) : Bool :=
  s.mILMFrameRouter.isSome

/-- Stream initialization transition.  Modelled from the spec (section
4.2) and the initStream documentation, the body being absent from the
sources: an interleave-capable depth format targets InterleaveMode
regardless of the requested sizes, under the precondition that the
color width equals the depth height - a violation is a configuration
error reported synchronously with no state change; otherwise a zero
depth width gives ColorOnly, a zero color width gives DepthOnly, and
both nonzero give DualStream.  On success the primary endpoint is
opened first, the second endpoint only for DepthOnly and DualStream,
and the ILM router is constructed only in InterleaveMode.  Pixel
formats, frame rate and callback registrations do not affect the
transition and are omitted.  Returns the status code and the new
state. -/
def initStream (s : SessionState) (colorWidth colorHeight : Nat)
    (depthFormat : Nat) (depthWidth depthHeight : Nat) : Int × SessionState :=
  if isInterleaveFormat depthFormat then
    if colorWidth = depthHeight then
      (APC_OK,
       { mode := StreamingMode.InterleaveMode, mIsILMMode := true,
         mIsDepthOnlyMode := false, mColorPath1Opened := true,
         mMonoPathOpened := false, mILMFrameRouter := some (),
         producersEnabled := true })
    else (APC_Init_Fail, s)
  else if depthWidth = 0 then
    (APC_OK,
     { mode := StreamingMode.ColorOnly, mIsILMMode := false,
       mIsDepthOnlyMode := false, mColorPath1Opened := true,
       mMonoPathOpened := false, mILMFrameRouter := none,
       producersEnabled := true })
  else if colorWidth = 0 then
    (APC_OK,
     { mode := StreamingMode.DepthOnly, mIsILMMode := false,
       mIsDepthOnlyMode := true, mColorPath1Opened := true,
       mMonoPathOpened := true, mILMFrameRouter := none,
       producersEnabled := true })
  else
    (APC_OK,
     { mode := StreamingMode.DualStream, mIsILMMode := false,
       mIsDepthOnlyMode := false, mColorPath1Opened := true,
       mMonoPathOpened := true, mILMFrameRouter := none,
       producersEnabled := true })

/-- Observable effects of one closeStream call, in execution order. -/
inductive CloseStep
  | stopRouter
  | disableProducers
  | closeColorPath1
  | closeMonoPath
deriving DecidableEq, Repr

/-- Stream teardown.  Modelled from the spec (section 4.2) and the
closeStream documentation (CameraDevice_80363.h lines 176 to 183), the
body being absent from the sources: the ILM frame router, when present,
is stopped and joined first; only then are producer callbacks disabled
and the opened endpoints closed; each effect is emitted only when there
is something to tear down, making the call idempotent; the final state
is idle and the call always reports success.  Returns the status code,
the new state and the ordered list of effects performed. -/
def closeStream (s : SessionState) : Int × SessionState × List CloseStep :=
  (APC_OK,
   { mode := StreamingMode.Idle, mIsILMMode := false,
     mIsDepthOnlyMode := false, mColorPath1Opened := false,
     mMonoPathOpened := false, mILMFrameRouter := none,
     producersEnabled := false },
   (if s.mILMFrameRouter.isSome then [CloseStep.stopRouter] else [])
     ++ (if s.producersEnabled then [CloseStep.disableProducers] else [])
     ++ (if s.mColorPath1Opened then [CloseStep.closeColorPath1] else [])
     ++ (if s.mMonoPathOpened then [CloseStep.closeMonoPath] else []))

/-- Public operations of the session state machine. -/
inductive SessionOp
  | initStreamOp (colorWidth colorHeight depthFormat depthWidth depthHeight : Nat)
  | closeStreamOp
deriving DecidableEq, Repr

/-- Apply one public operation to the session state. -/
def applySessionOp (s : SessionState) : SessionOp → SessionState
  | SessionOp.initStreamOp cw ch df dw dh => (initStream s cw ch df dw dh).2
  | SessionOp.closeStreamOp => (closeStream s).2.1

/-- States of CameraDevice80363 reachable through its public
operations from the initial state. -/
inductive ReachableSession : SessionState → Prop
  | init : ReachableSession initialSession
  | step {s : SessionState} (op : SessionOp) :
      ReachableSession s → ReachableSession (applySessionOp s op)

/-! ## ZD calibration table (src/include/devices/CameraDevice_80363.h,
updateZDTable)

The body is not in the provided sources; the build below is modelled
from the spec (section 4.5) and the algorithm documented on the
override (CameraDevice_80363.h lines 227 to 234): clear the table; for
each disparity sample compute Z as focal length over disparity; store
each Z as a big-endian 16-bit value; track nZNear and nZFar while
filling; report APC_NO_CALIBRATION_LOG when no calibration data is
present.  The float arithmetic of the C++ is modelled over the
rationals; a Z value is quantized to 16 bits by flooring and reducing
modulo 2 to the 16. -/

/-- Quantization of a physical depth value to an unsigned 16-bit
fixed-point sample. -/
def quantizeZ (q : ℚ) : Nat :=
  (Int.toNat ⌊q⌋) % 65536

/-- Depth table sample for one disparity value: focal length divided by
the disparity-to-world sample, quantized to 16 bits. -/
def zValue (focal d : ℚ) : Nat :=
  quantizeZ (focal / d)

/-- Accumulator of the ZD table build: the byte table filled so far and
the running near and far bounds. -/
structure ZDState where
  nZDTable : List Nat
  nZNear : Nat
  nZFar : Nat
deriving DecidableEq, Repr

/-- One loop step of the ZD table build: compute Z for the next
disparity sample, append its two bytes high byte first (the big-endian
layout produced by storing bswap16 of the little-endian value), and
update the running bounds. -/
def zdStep (focal : ℚ) (st : ZDState) (d : ℚ) : ZDState :=
  { nZDTable := st.nZDTable ++ [zValue focal d / 256, zValue focal d % 256],
    nZNear := min st.nZNear (zValue focal d),
    nZFar := max st.nZFar (zValue focal d) }

/-- Initial ZD accumulator: cleared table, near bound at the maximum
16-bit value, far bound at zero. -/
def zdInit : ZDState :=
  { nZDTable := [], nZNear := 65535, nZFar := 0 }

/-- The ZD table build: with no calibration data it fails with
APC_NO_CALIBRATION_LOG and leaves the cleared table; with a zero
disparity-to-world sample the corresponding entry would be undefined,
so the build fails with the distinct malformed-data code
APC_ILLEGAL_DATA and leaves the cleared table (spec section 4.5);
otherwise it folds the loop step over the samples and succeeds. -/
def updateZDTable (focal : ℚ) (disparityToW : List ℚ) : Int × ZDState :=
  if disparityToW.isEmpty then (APC_NO_CALIBRATION_LOG, zdInit)
  else if (0 : ℚ) ∈ disparityToW then (APC_ILLEGAL_DATA, zdInit)
  else (APC_OK, disparityToW.foldl (zdStep focal) zdInit)

/-- Spec-level layout of the ZD byte table (spec section 4.5): for each
disparity sample in order, the two bytes of its Z value, high byte
first.  Stated separately from the loop of updateZDTable so that the
loop can be proved to refine it. -/
def zdBytes (focal : ℚ) : List ℚ → List Nat
  | [] => []
  | d :: rest => zValue focal d / 256 :: zValue focal d % 256 :: zdBytes focal rest

/-! ## Theorems -/

/-- C10: swapBuffersOnly exchanges exactly the three buffer vectors
dataVec, zdDepthVec and rgbVec between the two frames, and leaves every
other field of both frames unchanged. -/
theorem swapBuffersOnly_exchanges_exactly_the_buffers (a b : Frame) :
    ((Frame.swapBuffersOnly a b).1.dataVec = b.dataVec
      ∧ (Frame.swapBuffersOnly a b).1.zdDepthVec = b.zdDepthVec
      ∧ (Frame.swapBuffersOnly a b).1.rgbVec = b.rgbVec
      ∧ (Frame.swapBuffersOnly a b).2.dataVec = a.dataVec
      ∧ (Frame.swapBuffersOnly a b).2.zdDepthVec = a.zdDepthVec
      ∧ (Frame.swapBuffersOnly a b).2.rgbVec = a.rgbVec)
    ∧ ((Frame.swapBuffersOnly a b).1.tsUs = a.tsUs
      ∧ (Frame.swapBuffersOnly a b).1.serialNumber = a.serialNumber
      ∧ (Frame.swapBuffersOnly a b).1.width = a.width
      ∧ (Frame.swapBuffersOnly a b).1.height = a.height
      ∧ (Frame.swapBuffersOnly a b).1.actualDataBufferSize = a.actualDataBufferSize
      ∧ (Frame.swapBuffersOnly a b).1.dataBufferSize = a.dataBufferSize
      ∧ (Frame.swapBuffersOnly a b).1.nDevType = a.nDevType
      ∧ (Frame.swapBuffersOnly a b).1.nZDTableSize = a.nZDTableSize
      ∧ (Frame.swapBuffersOnly a b).1.nZDTable = a.nZDTable
      ∧ (Frame.swapBuffersOnly a b).1.processedBufferSize = a.processedBufferSize
      ∧ (Frame.swapBuffersOnly a b).1.actualZDDepthBufferSize = a.actualZDDepthBufferSize
      ∧ (Frame.swapBuffersOnly a b).1.zdDepthBufferSize = a.zdDepthBufferSize
      ∧ (Frame.swapBuffersOnly a b).1.actualRGBBufferSize = a.actualRGBBufferSize
      ∧ (Frame.swapBuffersOnly a b).1.rgbBufferSize = a.rgbBufferSize
      ∧ (Frame.swapBuffersOnly a b).1.dataFormat = a.dataFormat
      ∧ (Frame.swapBuffersOnly a b).1.rgbFormat = a.rgbFormat
      ∧ (Frame.swapBuffersOnly a b).1.rgbTranscodingTimeUs = a.rgbTranscodingTimeUs
      ∧ (Frame.swapBuffersOnly a b).1.filteringTimeUs = a.filteringTimeUs
      ∧ (Frame.swapBuffersOnly a b).1.sensorDataSet = a.sensorDataSet
      ∧ (Frame.swapBuffersOnly a b).1.roiDepth = a.roiDepth
      ∧ (Frame.swapBuffersOnly a b).1.roiZValue = a.roiZValue
      ∧ (Frame.swapBuffersOnly a b).1.extra = a.extra
      ∧ (Frame.swapBuffersOnly a b).1.toCallback = a.toCallback
      ∧ (Frame.swapBuffersOnly a b).1.toPCCallback = a.toPCCallback
      ∧ (Frame.swapBuffersOnly a b).1.interleaveMode = a.interleaveMode)
    ∧ ((Frame.swapBuffersOnly a b).2.tsUs = b.tsUs
      ∧ (Frame.swapBuffersOnly a b).2.serialNumber = b.serialNumber
      ∧ (Frame.swapBuffersOnly a b).2.width = b.width
      ∧ (Frame.swapBuffersOnly a b).2.height = b.height
      ∧ (Frame.swapBuffersOnly a b).2.actualDataBufferSize = b.actualDataBufferSize
      ∧ (Frame.swapBuffersOnly a b).2.dataBufferSize = b.dataBufferSize
      ∧ (Frame.swapBuffersOnly a b).2.nDevType = b.nDevType
      ∧ (Frame.swapBuffersOnly a b).2.nZDTableSize = b.nZDTableSize
      ∧ (Frame.swapBuffersOnly a b).2.nZDTable = b.nZDTable
      ∧ (Frame.swapBuffersOnly a b).2.processedBufferSize = b.processedBufferSize
      ∧ (Frame.swapBuffersOnly a b).2.actualZDDepthBufferSize = b.actualZDDepthBufferSize
      ∧ (Frame.swapBuffersOnly a b).2.zdDepthBufferSize = b.zdDepthBufferSize
      ∧ (Frame.swapBuffersOnly a b).2.actualRGBBufferSize = b.actualRGBBufferSize
      ∧ (Frame.swapBuffersOnly a b).2.rgbBufferSize = b.rgbBufferSize
      ∧ (Frame.swapBuffersOnly a b).2.dataFormat = b.dataFormat
      ∧ (Frame.swapBuffersOnly a b).2.rgbFormat = b.rgbFormat
      ∧ (Frame.swapBuffersOnly a b).2.rgbTranscodingTimeUs = b.rgbTranscodingTimeUs
      ∧ (Frame.swapBuffersOnly a b).2.filteringTimeUs = b.filteringTimeUs
      ∧ (Frame.swapBuffersOnly a b).2.sensorDataSet = b.sensorDataSet
      ∧ (Frame.swapBuffersOnly a b).2.roiDepth = b.roiDepth
      ∧ (Frame.swapBuffersOnly a b).2.roiZValue = b.roiZValue
      ∧ (Frame.swapBuffersOnly a b).2.extra = b.extra
      ∧ (Frame.swapBuffersOnly a b).2.toCallback = b.toCallback
      ∧ (Frame.swapBuffersOnly a b).2.toPCCallback = b.toPCCallback
      ∧ (Frame.swapBuffersOnly a b).2.interleaveMode = b.interleaveMode) := by
  repeat' apply And.intro
  all_goals rfl

/-- C4 counterexample: contrary to the claim, the device-info category
does not resolve to the same endpoint as the calibration, streaming and
color-frame categories; it resolves to base+0, an endpoint that is
therefore not unused. -/
theorem getDeviceInfoByCategory_DEVICE_INFO_is_separate :
    getDeviceInfoByCategory ActionCategory.DEVICE_INFO = INDEX_COLOR_PATH0
    ∧ getDeviceInfoByCategory ActionCategory.CALIBRATION = INDEX_COLOR_PATH1
    ∧ getDeviceInfoByCategory ActionCategory.DEVICE_INFO
        ≠ getDeviceInfoByCategory ActionCategory.CALIBRATION
    ∧ getDeviceInfoByCategory ActionCategory.DEVICE_INFO
        ≠ getDeviceInfoByCategory ActionCategory.STREAMING
    ∧ getDeviceInfoByCategory ActionCategory.DEVICE_INFO
        ≠ getDeviceInfoByCategory ActionCategory.FRAME_COLOR := by
  decide

/-- C4 amended: the category-to-endpoint resolution is total over the
closed ActionCategory enumeration and every category resolves to a
valid endpoint index below 3; calibration, camera-property, streaming,
streaming-hardware-access and color-frame categories (and the remaining
register-access categories by default) resolve to the primary endpoint
base+1; IR-control and depth-frame categories resolve to the mono
endpoint base+2; device-info alone resolves to base+0. -/
theorem getDeviceInfoByCategory_total_and_static :
    (∀ c : ActionCategory, getDeviceInfoByCategory c < 3)
    ∧ getDeviceInfoByCategory ActionCategory.DEVICE_INFO = INDEX_COLOR_PATH0
    ∧ getDeviceInfoByCategory ActionCategory.CALIBRATION = INDEX_COLOR_PATH1
    ∧ getDeviceInfoByCategory ActionCategory.CAMERA_PROPERTY = INDEX_COLOR_PATH1
    ∧ getDeviceInfoByCategory ActionCategory.STREAMING = INDEX_COLOR_PATH1
    ∧ getDeviceInfoByCategory ActionCategory.STREAMING_MONO = INDEX_COLOR_PATH1
    ∧ getDeviceInfoByCategory ActionCategory.STREAMING_HARDWARE_ACCESS = INDEX_COLOR_PATH1
    ∧ getDeviceInfoByCategory ActionCategory.ASIC_ACCESS = INDEX_COLOR_PATH1
    ∧ getDeviceInfoByCategory ActionCategory.FRAME_COLOR = INDEX_COLOR_PATH1
    ∧ getDeviceInfoByCategory ActionCategory.FRAME_PROCESS = INDEX_COLOR_PATH1
    ∧ getDeviceInfoByCategory ActionCategory.IR_CONTROL = INDEX_MONO_PATH
    ∧ getDeviceInfoByCategory ActionCategory.FRAME_DEPTH = INDEX_MONO_PATH := by
  refine ⟨?_, by decide⟩
  intro c
  cases c <;> decide

/-- C7: closeStream is idempotent - every call returns success, calling
it on the idle state with no endpoints open performs no effect, and a
second call in a row performs no additional effect while returning
success again. -/
theorem closeStream_idempotent :
    (∀ s : SessionState,
        (closeStream s).1 = APC_OK
        ∧ (closeStream (closeStream s).2.1).1 = APC_OK
        ∧ (closeStream (closeStream s).2.1).2.1 = (closeStream s).2.1
        ∧ (closeStream (closeStream s).2.1).2.2 = [])
    ∧ closeStream initialSession = (APC_OK, initialSession, []) := by
  constructor
  · intro s
    refine ⟨rfl, rfl, rfl, rfl⟩
  · rfl

/-- C5: under the precondition that the color width equals the depth
height, initStream targets InterleaveMode exactly when the depth format
is interleave capable, regardless of the requested sizes; when the
precondition is violated for an interleave format, initStream reports a
configuration error synchronously, the operation does not proceed and
the state is unchanged. -/
theorem initStream_interleave_precondition (s : SessionState)
    (cw ch df dw dh : Nat) :
    (cw = dh →
        (((initStream s cw ch df dw dh).2.mode = StreamingMode.InterleaveMode)
            ↔ isInterleaveFormat df = true)
        ∧ (isInterleaveFormat df = true →
            (initStream s cw ch df dw dh).1 = APC_OK))
    ∧ (isInterleaveFormat df = true → cw ≠ dh →
        (initStream s cw ch df dw dh).1 = APC_Init_Fail
        ∧ (initStream s cw ch df dw dh).1 ≠ APC_OK
        ∧ (initStream s cw ch df dw dh).2 = s) := by
  constructor
  · intro hpre
    by_cases hilm : isInterleaveFormat df = true
    · simp [initStream, hilm, hpre, APC_OK]
    · simp only [Bool.not_eq_true] at hilm
      by_cases hdw : dw = 0
      · simp [initStream, hilm, hdw]
      · by_cases hcw : cw = 0 <;> simp [initStream, hilm, hdw, hcw]
  · intro hilm hne
    simp [initStream, hilm, hne, APC_Init_Fail, APC_OK]

/-- C5 witness: at a concrete interleave request with matching color
width and depth height the session enters InterleaveMode with success,
and with a mismatched pair the call fails with no state change. -/
theorem initStream_interleave_precondition_witness :
    ((640 : Nat) = 640
      ∧ isInterleaveFormat 26 = true
      ∧ (initStream initialSession 640 480 26 640 640).2.mode
          = StreamingMode.InterleaveMode
      ∧ (initStream initialSession 640 480 26 640 640).1 = APC_OK)
    ∧ ((640 : Nat) ≠ 480
      ∧ (initStream initialSession 640 480 26 640 480).1 = APC_Init_Fail
      ∧ (initStream initialSession 640 480 26 640 480).2 = initialSession) := by
  have h1 := (initStream_interleave_precondition initialSession 640 480 26 640 640).1 rfl
  have h2 := (initStream_interleave_precondition initialSession 640 480 26 640 480).2
    (by decide) (by decide)
  exact ⟨⟨rfl, by decide, h1.1.mpr (by decide), h1.2 (by decide)⟩,
         ⟨by decide, h2.1, h2.2.2⟩⟩

/-- Invariant helper: along every reachable session state, the ILM
frame router exists exactly in InterleaveMode. -/
theorem reachable_router_iff_interleave {s : SessionState}
    (h : ReachableSession s) :
    s.mILMFrameRouter.isSome = true ↔ s.mode = StreamingMode.InterleaveMode := by
  induction h with
  | init => simp [initialSession]
  | step op hs ih =>
      cases op with
      | initStreamOp cw ch df dw dh =>
          simp only [applySessionOp]
          by_cases hilm : isInterleaveFormat df = true
          · by_cases hpre : cw = dh
            · simp [initStream, hilm, hpre]
            · simpa [initStream, hilm, hpre] using ih
          · simp only [Bool.not_eq_true] at hilm
            by_cases hdw : dw = 0
            · simp [initStream, hilm, hdw]
            · by_cases hcw : cw = 0 <;> simp [initStream, hilm, hdw, hcw]
      | closeStreamOp =>
          simp [applySessionOp, closeStream]

/-- C9: for every session state reachable through the public
operations, isUsingILMSharedPool returns true exactly when the ILM
frame router exists, which happens exactly in InterleaveMode; in every
other mode (Idle, ColorOnly, DepthOnly, DualStream) it returns false. -/
theorem isUsingILMSharedPool_iff_router {s : SessionState}
    (h : ReachableSession s) :
    (isUsingILMSharedPool s = true ↔ s.mILMFrameRouter.isSome = true)
    ∧ (isUsingILMSharedPool s = true ↔ s.mode = StreamingMode.InterleaveMode)
    ∧ (s.mode ≠ StreamingMode.InterleaveMode → isUsingILMSharedPool s = false) := by
  have hiff := reachable_router_iff_interleave h
  refine ⟨Iff.rfl, hiff, ?_⟩
  intro hne
  by_contra hca
  simp only [Bool.not_eq_false] at hca
  exact hne (hiff.mp hca)

/-- C9 witness: the initial idle state is reachable, uses no shared
pool, and a freshly initialized interleave session is reachable and
uses the shared pool. -/
theorem isUsingILMSharedPool_iff_router_witness :
    isUsingILMSharedPool initialSession = false
    ∧ initialSession.mode ≠ StreamingMode.InterleaveMode
    ∧ isUsingILMSharedPool
        (applySessionOp initialSession (SessionOp.initStreamOp 640 480 26 640 640)) = true := by
  have h1 := (isUsingILMSharedPool_iff_router ReachableSession.init).2.2 (by decide)
  have h2 := (isUsingILMSharedPool_iff_router
      (ReachableSession.step (SessionOp.initStreamOp 640 480 26 640 640)
        ReachableSession.init)).2.1
  exact ⟨h1, by decide, h2.mpr (by decide)⟩

/-- Routing sends a frame to the color consumer exactly when its serial
is odd. -/
theorem routeFrame_color_iff (n : Nat) :
    routeFrame n = RouteTarget.color ↔ n % 2 = 1 := by
  rcases Nat.mod_two_eq_zero_or_one n with h | h <;> simp [routeFrame, h]

/-- Routing sends a frame to the depth consumer exactly when its serial
is even. -/
theorem routeFrame_depth_iff (n : Nat) :
    routeFrame n = RouteTarget.depth ↔ n % 2 = 0 := by
  rcases Nat.mod_two_eq_zero_or_one n with h | h <;> simp [routeFrame, h]

/-- Inversion of a successful channel send: the channel was open and
not full, and the frame was appended at the tail. -/
theorem channelTrySend_delivered {ch : Channel} {f : Nat} {c : Channel}
    (h : channelTrySend ch f = SendOutcome.delivered c) :
    ch.closed = false ∧ ch.buf.length < ch.cap
      ∧ c = { ch with buf := ch.buf ++ [f] } := by
  by_cases h1 : ch.closed = true
  · simp [channelTrySend, h1] at h
  · by_cases h2 : ch.cap ≤ ch.buf.length
    · simp [channelTrySend, h1, h2] at h
    · unfold channelTrySend at h
      rw [if_neg h1, if_neg h2] at h
      injection h with h3
      exact ⟨by simpa using h1, by omega, h3.symm⟩

/-- One router event preserves the parity discipline of the consumer
sides. -/
theorem paritySides_applyAction {s : RouterState} (h : paritySides s)
    (a : RouterAction) : paritySides (applyAction s a) := by
  obtain ⟨hc, hd⟩ := h
  cases a with
  | iterate =>
      show paritySides (routerIterate s)
      unfold routerIterate
      by_cases hstop : s.stopped = true
      · rw [if_pos hstop]
        exact ⟨hc, hd⟩
      · rw [if_neg hstop]
        cases hp : s.pending with
        | none =>
            show paritySides (readStep s)
            unfold readStep
            by_cases hreq : s.stopRequested = true
            · rw [if_pos hreq]
              exact ⟨hc, hd⟩
            · rw [if_neg hreq]
              cases hr : s.reads with
              | nil => exact ⟨hc, hd⟩
              | cons r rest =>
                  cases r with
                  | ok serial => exact ⟨hc, hd⟩
                  | ioError => exact ⟨hc, hd⟩
        | some f =>
            show paritySides (routeStep s f)
            unfold routeStep
            cases hrt : routeFrame f with
            | color =>
                cases hsend : channelTrySend s.colorChan f with
                | closedChan => exact ⟨hc, hd⟩
                | wouldBlock => exact ⟨hc, hd⟩
                | delivered c =>
                    obtain ⟨-, -, hceq⟩ := channelTrySend_delivered hsend
                    subst hceq
                    constructor
                    · intro y hy
                      simp only [colorSide, List.mem_append, List.mem_singleton] at hy
                      rcases hy with (hy | hy) | hy
                      · exact hc y (by simp [colorSide, hy])
                      · subst hy
                        exact (routeFrame_color_iff y).mp hrt
                      · exact hc y (by simp [colorSide, hy])
                    · intro y hy
                      exact hd y hy
            | depth =>
                cases hsend : channelTrySend s.depthChan f with
                | closedChan => exact ⟨hc, hd⟩
                | wouldBlock => exact ⟨hc, hd⟩
                | delivered c =>
                    obtain ⟨-, -, hceq⟩ := channelTrySend_delivered hsend
                    subst hceq
                    constructor
                    · intro y hy
                      exact hc y hy
                    · intro y hy
                      simp only [depthSide, List.mem_append, List.mem_singleton] at hy
                      rcases hy with (hy | hy) | hy
                      · exact hd y (by simp [depthSide, hy])
                      · subst hy
                        exact (routeFrame_depth_iff y).mp hrt
                      · exact hd y (by simp [depthSide, hy])
  | drainColor =>
      simp only [applyAction]
      cases hb : s.colorChan.buf with
      | nil => exact ⟨hc, hd⟩
      | cons x rest =>
          constructor
          · intro y hy
            apply hc y
            simp only [colorSide, List.mem_append, List.mem_singleton] at hy
            simp only [colorSide, hb, List.mem_append, List.mem_cons]
            tauto
          · intro y hy
            exact hd y hy
  | drainDepth =>
      simp only [applyAction]
      cases hb : s.depthChan.buf with
      | nil => exact ⟨hc, hd⟩
      | cons x rest =>
          constructor
          · intro y hy
            exact hc y hy
          · intro y hy
            apply hd y
            simp only [depthSide, List.mem_append, List.mem_singleton] at hy
            simp only [depthSide, hb, List.mem_append, List.mem_cons]
            tauto
  | closeChannels => exact ⟨hc, hd⟩
  | requestStop => exact ⟨hc, hd⟩

/-- A whole run of router events preserves the parity discipline. -/
theorem paritySides_routerRun {s : RouterState} (h : paritySides s)
    (acts : List RouterAction) : paritySides (routerRun s acts) := by
  induction acts generalizing s with
  | nil => exact h
  | cons a rest ih => exact ih (paritySides_applyAction h a)

/-- Coercion of a list append into a multiset is the multiset sum. -/
theorem listCoe_append (l₁ l₂ : List Nat) :
    ((l₁ ++ l₂ : List Nat) : Multiset Nat) = (l₁ : Multiset Nat) + (l₂ : Multiset Nat) :=
  (Multiset.coe_add l₁ l₂).symm

/-- Coercion of a list cons into a multiset is a singleton plus the
tail. -/
theorem listCoe_cons (a : Nat) (l : List Nat) :
    ((a :: l : List Nat) : Multiset Nat) = {a} + (l : Multiset Nat) := by
  have h : (a :: l : List Nat) = [a] ++ l := rfl
  rw [h, listCoe_append, Multiset.coe_singleton]

/-- One router event conserves the multiset of successfully read
frames: what the state accounts for plus what remains to be read is
unchanged. -/
theorem inFlight_applyAction (s : RouterState) (a : RouterAction) :
    inFlight (applyAction s a)
        + (okSerials (applyAction s a).reads : Multiset Nat)
      = inFlight s + (okSerials s.reads : Multiset Nat) := by
  cases a with
  | iterate =>
      show inFlight (routerIterate s)
          + (okSerials (routerIterate s).reads : Multiset Nat)
        = inFlight s + (okSerials s.reads : Multiset Nat)
      unfold routerIterate
      by_cases hstop : s.stopped = true
      · rw [if_pos hstop]
      · rw [if_neg hstop]
        cases hp : s.pending with
        | none =>
            show inFlight (readStep s)
                + (okSerials (readStep s).reads : Multiset Nat)
              = inFlight s + (okSerials s.reads : Multiset Nat)
            unfold readStep
            by_cases hreq : s.stopRequested = true
            · rw [if_pos hreq]
              rfl
            · rw [if_neg hreq]
              cases hr : s.reads with
              | nil => simp [hr]
              | cons r rest =>
                  cases r with
                  | ok serial =>
                      simp only [inFlight, okSerials, hp, hr, Option.toList,
                        listCoe_cons, Multiset.coe_nil]
                      abel
                  | ioError =>
                      simp [inFlight, okSerials, hr]
        | some f =>
            show inFlight (routeStep s f)
                + (okSerials (routeStep s f).reads : Multiset Nat)
              = inFlight s + (okSerials s.reads : Multiset Nat)
            unfold routeStep
            cases hrt : routeFrame f with
            | color =>
                cases hsend : channelTrySend s.colorChan f with
                | closedChan =>
                    simp only [inFlight, hp, Option.toList, listCoe_append,
                      Multiset.coe_singleton, Multiset.coe_nil]
                    abel
                | wouldBlock => rfl
                | delivered c =>
                    obtain ⟨-, -, hceq⟩ := channelTrySend_delivered hsend
                    subst hceq
                    simp only [inFlight, hp, Option.toList, listCoe_append,
                      Multiset.coe_singleton, Multiset.coe_nil]
                    abel
            | depth =>
                cases hsend : channelTrySend s.depthChan f with
                | closedChan =>
                    simp only [inFlight, hp, Option.toList, listCoe_append,
                      Multiset.coe_singleton, Multiset.coe_nil]
                    abel
                | wouldBlock => rfl
                | delivered c =>
                    obtain ⟨-, -, hceq⟩ := channelTrySend_delivered hsend
                    subst hceq
                    simp only [inFlight, hp, Option.toList, listCoe_append,
                      Multiset.coe_singleton, Multiset.coe_nil]
                    abel
  | drainColor =>
      simp only [applyAction]
      cases hb : s.colorChan.buf with
      | nil => rfl
      | cons x rest =>
          simp only [inFlight, hb, listCoe_append, listCoe_cons,
            Multiset.coe_singleton]
          abel
  | drainDepth =>
      simp only [applyAction]
      cases hb : s.depthChan.buf with
      | nil => rfl
      | cons x rest =>
          simp only [inFlight, hb, listCoe_append, listCoe_cons,
            Multiset.coe_singleton]
          abel
  | closeChannels => rfl
  | requestStop => rfl

/-- A whole run of router events conserves the multiset of
successfully read frames. -/
theorem inFlight_routerRun (s : RouterState) (acts : List RouterAction) :
    inFlight (routerRun s acts)
        + (okSerials (routerRun s acts).reads : Multiset Nat)
      = inFlight s + (okSerials s.reads : Multiset Nat) := by
  induction acts generalizing s with
  | nil => rfl
  | cons a rest ih =>
      calc inFlight (routerRun (applyAction s a) rest)
            + (okSerials (routerRun (applyAction s a) rest).reads : Multiset Nat)
          = inFlight (applyAction s a)
            + (okSerials (applyAction s a).reads : Multiset Nat) := ih (applyAction s a)
        _ = inFlight s + (okSerials s.reads : Multiset Nat) := inFlight_applyAction s a

/-- C1: the ILM router demultiplexes by serial parity only: in every
run every frame on the color consumer side has an odd serial and every
frame on the depth consumer side an even serial; a staged odd frame
with room in the open color channel is appended to the color channel
and the depth channel is untouched, and symmetrically for an even
frame; and the routing decision depends only on the parity of the
serial. -/
theorem router_routes_by_serial_parity :
    (∀ (reads : List ReadResult) (cap : Nat) (acts : List RouterAction),
        (∀ x ∈ colorSide (routerRun (initRouterState reads cap) acts), x % 2 = 1)
        ∧ (∀ x ∈ depthSide (routerRun (initRouterState reads cap) acts), x % 2 = 0))
    ∧ (∀ (s : RouterState) (f : Nat),
        s.stopped = false → s.pending = some f → f % 2 = 1 →
        s.colorChan.closed = false → s.colorChan.buf.length < s.colorChan.cap →
        (routerIterate s).colorChan.buf = s.colorChan.buf ++ [f]
          ∧ (routerIterate s).depthChan = s.depthChan
          ∧ (routerIterate s).pending = none)
    ∧ (∀ (s : RouterState) (f : Nat),
        s.stopped = false → s.pending = some f → f % 2 = 0 →
        s.depthChan.closed = false → s.depthChan.buf.length < s.depthChan.cap →
        (routerIterate s).depthChan.buf = s.depthChan.buf ++ [f]
          ∧ (routerIterate s).colorChan = s.colorChan
          ∧ (routerIterate s).pending = none)
    ∧ (∀ n : Nat, routeFrame n = routeFrame (n % 2)) := by
  refine ⟨?_, ?_, ?_, ?_⟩
  · intro reads cap acts
    have h0 : paritySides (initRouterState reads cap) := by
      constructor <;> intro x hx <;>
        simp [colorSide, depthSide, initRouterState] at hx
    exact paritySides_routerRun h0 acts
  · intro s f hstop hp hodd hcl hlen
    have hiter : routerIterate s = routeStep s f := by
      unfold routerIterate
      rw [if_neg (by simp [hstop]), hp]
    have hrt : routeFrame f = RouteTarget.color := (routeFrame_color_iff f).mpr hodd
    have hsend : channelTrySend s.colorChan f
        = SendOutcome.delivered { s.colorChan with buf := s.colorChan.buf ++ [f] } := by
      unfold channelTrySend
      rw [if_neg (by simp [hcl]), if_neg (by omega)]
    rw [hiter]
    unfold routeStep
    rw [hrt, hsend]
    exact ⟨rfl, rfl, rfl⟩
  · intro s f hstop hp heven hcl hlen
    have hiter : routerIterate s = routeStep s f := by
      unfold routerIterate
      rw [if_neg (by simp [hstop]), hp]
    have hrt : routeFrame f = RouteTarget.depth := (routeFrame_depth_iff f).mpr heven
    have hsend : channelTrySend s.depthChan f
        = SendOutcome.delivered { s.depthChan with buf := s.depthChan.buf ++ [f] } := by
      unfold channelTrySend
      rw [if_neg (by simp [hcl]), if_neg (by omega)]
    rw [hiter]
    unfold routeStep
    rw [hrt, hsend]
    exact ⟨rfl, rfl, rfl⟩
  · intro n
    rcases Nat.mod_two_eq_zero_or_one n with h | h <;> simp [routeFrame, h]

/-- C1 witness: a concrete run delivering serials 1 and 2 satisfies the
parity discipline on both consumer sides, and at a concrete state with
a staged odd frame the frame lands in the color channel. -/
theorem router_routes_by_serial_parity_witness :
    ((∀ x ∈ colorSide (routerRun
          (initRouterState [ReadResult.ok 1, ReadResult.ok 2] 4)
          [RouterAction.iterate, RouterAction.iterate,
           RouterAction.iterate, RouterAction.iterate]), x % 2 = 1)
      ∧ (∀ x ∈ depthSide (routerRun
          (initRouterState [ReadResult.ok 1, ReadResult.ok 2] 4)
          [RouterAction.iterate, RouterAction.iterate,
           RouterAction.iterate, RouterAction.iterate]), x % 2 = 0))
    ∧ (routerIterate resetExample).colorChan.buf
        = resetExample.colorChan.buf ++ [1]
    ∧ (routerIterate resetExample).depthChan = resetExample.depthChan
    ∧ (routerIterate resetExample).pending = none := by
  have h1 := router_routes_by_serial_parity.1 [ReadResult.ok 1, ReadResult.ok 2] 4
    [RouterAction.iterate, RouterAction.iterate,
     RouterAction.iterate, RouterAction.iterate]
  have h2 := router_routes_by_serial_parity.2.1 resetExample 1 rfl rfl
    (by decide) rfl (by decide)
  exact ⟨h1, h2.1, h2.2.1, h2.2.2⟩

/-- C2: the delivery into a consumer channel is a blocking send: over
every run of events, the multiset of successfully read frames is
conserved - each such frame is in a channel, at a consumer, staged for
routing, returned to the pool, or not yet read - so a frame is never
dropped because a channel is full; and an iteration whose staged frame
faces an open but full destination channel is a stall that changes
nothing. -/
theorem router_blocking_send_never_drops :
    (∀ (reads : List ReadResult) (cap : Nat) (acts : List RouterAction),
        inFlight (routerRun (initRouterState reads cap) acts)
            + (okSerials (routerRun (initRouterState reads cap) acts).reads : Multiset Nat)
          = (okSerials reads : Multiset Nat))
    ∧ (∀ (s : RouterState) (f : Nat),
        s.stopped = false → s.pending = some f →
        routeFrame f = RouteTarget.color → s.colorChan.closed = false →
        s.colorChan.cap ≤ s.colorChan.buf.length →
        routerIterate s = s)
    ∧ (∀ (s : RouterState) (f : Nat),
        s.stopped = false → s.pending = some f →
        routeFrame f = RouteTarget.depth → s.depthChan.closed = false →
        s.depthChan.cap ≤ s.depthChan.buf.length →
        routerIterate s = s) := by
  refine ⟨?_, ?_, ?_⟩
  · intro reads cap acts
    have h := inFlight_routerRun (initRouterState reads cap) acts
    simpa [inFlight, initRouterState, Multiset.coe_nil] using h
  · intro s f hstop hp hrt hcl hlen
    have hiter : routerIterate s = routeStep s f := by
      unfold routerIterate
      rw [if_neg (by simp [hstop]), hp]
    have hsend : channelTrySend s.colorChan f = SendOutcome.wouldBlock := by
      unfold channelTrySend
      rw [if_neg (by simp [hcl]), if_pos hlen]
    rw [hiter]
    unfold routeStep
    rw [hrt, hsend]
  · intro s f hstop hp hrt hcl hlen
    have hiter : routerIterate s = routeStep s f := by
      unfold routerIterate
      rw [if_neg (by simp [hstop]), hp]
    have hsend : channelTrySend s.depthChan f = SendOutcome.wouldBlock := by
      unfold channelTrySend
      rw [if_neg (by simp [hcl]), if_pos hlen]
    rw [hiter]
    unfold routeStep
    rw [hrt, hsend]

/-- C2 witness: a concrete run conserves its two successfully read
frames, and the concrete state with a full color channel and a staged
odd frame stalls unchanged. -/
theorem router_blocking_send_never_drops_witness :
    (inFlight (routerRun (initRouterState [ReadResult.ok 1, ReadResult.ioError] 4)
          [RouterAction.iterate, RouterAction.iterate])
        + (okSerials (routerRun (initRouterState [ReadResult.ok 1, ReadResult.ioError] 4)
          [RouterAction.iterate, RouterAction.iterate]).reads : Multiset Nat)
      = (okSerials [ReadResult.ok 1, ReadResult.ioError] : Multiset Nat))
    ∧ stalledExample.colorChan.cap ≤ stalledExample.colorChan.buf.length
    ∧ routerIterate stalledExample = stalledExample := by
  refine ⟨router_blocking_send_never_drops.1 [ReadResult.ok 1, ReadResult.ioError] 4
      [RouterAction.iterate, RouterAction.iterate], by decide, ?_⟩
  exact router_blocking_send_never_drops.2.1 stalledExample 3 rfl rfl
    (by decide) rfl (by decide)

/-- C3: a transient read failure below the ceiling leaves the loop
running with the consecutive-failure counter bumped and the failed read
consumed for retry; a failure that brings the counter exactly to
MAX_CONSECUTIVE_FAILURES stops the loop observably; and a successful
route resets the counter to zero. -/
theorem router_failure_ceiling_and_reset :
    (∀ (s : RouterState) (rest : List ReadResult),
        s.stopped = false → s.stopRequested = false → s.pending = none →
        s.reads = ReadResult.ioError :: rest →
        ((s.failures + 1 < MAX_CONSECUTIVE_FAILURES →
            (routerIterate s).stopped = false
            ∧ (routerIterate s).failures = s.failures + 1
            ∧ (routerIterate s).reads = rest)
          ∧ (s.failures + 1 = MAX_CONSECUTIVE_FAILURES →
            (routerIterate s).stopped = true
            ∧ (routerIterate s).failures = MAX_CONSECUTIVE_FAILURES)))
    ∧ (∀ (s : RouterState) (f : Nat),
        s.stopped = false → s.pending = some f →
        (routerIterate s).pending = none → (routerIterate s).stopped = false →
        (routerIterate s).failures = 0) := by
  constructor
  · intro s rest hstop hreq hp hreads
    have hiter : routerIterate s = readStep s := by
      unfold routerIterate
      rw [if_neg (by simp [hstop]), hp]
    have hread : readStep s
        = { s with reads := rest, failures := s.failures + 1,
                   ioDrops := s.ioDrops + 1,
                   stopped := decide (MAX_CONSECUTIVE_FAILURES ≤ s.failures + 1) } := by
      unfold readStep
      rw [if_neg (by simp [hreq]), hreads]
    constructor
    · intro hlt
      rw [hiter, hread]
      refine ⟨?_, rfl, rfl⟩
      show decide (MAX_CONSECUTIVE_FAILURES ≤ s.failures + 1) = false
      rw [decide_eq_false_iff_not]
      omega
    · intro heq
      rw [hiter, hread]
      refine ⟨?_, heq⟩
      show decide (MAX_CONSECUTIVE_FAILURES ≤ s.failures + 1) = true
      rw [decide_eq_true_eq]
      omega
  · intro s f hstop hp hpend hstop2
    have hiter : routerIterate s = routeStep s f := by
      unfold routerIterate
      rw [if_neg (by simp [hstop]), hp]
    rw [hiter] at hpend hstop2 ⊢
    unfold routeStep at hpend hstop2 ⊢
    cases hrt : routeFrame f with
    | color =>
        rw [hrt] at hpend hstop2
        cases hsend : channelTrySend s.colorChan f with
        | closedChan =>
            rw [hsend] at hstop2
            simp at hstop2
        | wouldBlock =>
            rw [hsend] at hpend
            rw [hp] at hpend
            simp at hpend
        | delivered c =>
            rfl
    | depth =>
        rw [hrt] at hpend hstop2
        cases hsend : channelTrySend s.depthChan f with
        | closedChan =>
            rw [hsend] at hstop2
            simp at hstop2
        | wouldBlock =>
            rw [hsend] at hpend
            rw [hp] at hpend
            simp at hpend
        | delivered c =>
            rfl

/-- C3 witness: at the concrete failure states, the first failure
leaves the loop running with counter one, the hundredth failure stops
it with the counter at the ceiling, and the concrete successful route
resets a counter of seven to zero. -/
theorem router_failure_ceiling_and_reset_witness :
    (routerIterate (failureExample 0)).stopped = false
    ∧ (routerIterate (failureExample 0)).failures = 1
    ∧ (routerIterate (failureExample 99)).stopped = true
    ∧ (routerIterate (failureExample 99)).failures = MAX_CONSECUTIVE_FAILURES
    ∧ (routerIterate resetExample).failures = 0 := by
  have h1 := (router_failure_ceiling_and_reset.1 (failureExample 0) [] rfl rfl rfl
    rfl).1 (by decide)
  have h2 := (router_failure_ceiling_and_reset.1 (failureExample 99) [] rfl rfl rfl
    rfl).2 (by decide)
  have h3 := router_failure_ceiling_and_reset.2 resetExample 1 rfl rfl
    (by decide) (by decide)
  exact ⟨h1.1, h1.2.1, h2.1, h2.2, h3⟩

/-- Once a stop is requested and both consumer channels are closed, the
very next loop iteration exits: a blocked send is woken by the channel
closure into a clean shutdown and the loop boundary observes the stop
flag. -/
theorem routerIterate_stops_after_close {s : RouterState}
    (hreq : s.stopRequested = true) (hco : s.colorChan.closed = true)
    (hdo : s.depthChan.closed = true) : (routerIterate s).stopped = true := by
  unfold routerIterate
  by_cases hstop : s.stopped = true
  · rw [if_pos hstop]
    exact hstop
  · rw [if_neg hstop]
    cases hp : s.pending with
    | none =>
        show (readStep s).stopped = true
        unfold readStep
        rw [if_pos hreq]
    | some f =>
        show (routeStep s f).stopped = true
        unfold routeStep
        cases hrt : routeFrame f with
        | color =>
            have hsend : channelTrySend s.colorChan f = SendOutcome.closedChan := by
              unfold channelTrySend
              rw [if_pos hco]
            rw [hsend]
        | depth =>
            have hsend : channelTrySend s.depthChan f = SendOutcome.closedChan := by
              unfold channelTrySend
              rw [if_pos hdo]
            rw [hsend]

/-- C8: on closeStream of an interleave session the router stop is the
first effect, strictly before producer callbacks are disabled; and the
stop protocol of the router - request stop, close the channels, run one
more iteration - terminates the loop from any state, because channel
closure wakes a blocked send into a clean shutdown. -/
theorem closeStream_stops_router_before_producers :
    (∀ s : SessionState,
        s.mILMFrameRouter.isSome = true → s.producersEnabled = true →
        ∃ rest, (closeStream s).2.2
          = CloseStep.stopRouter :: CloseStep.disableProducers :: rest)
    ∧ (∀ rs : RouterState,
        (routerRun rs [RouterAction.requestStop, RouterAction.closeChannels,
          RouterAction.iterate]).stopped = true) := by
  constructor
  · intro s h1 h2
    refine ⟨(if s.mColorPath1Opened then [CloseStep.closeColorPath1] else [])
        ++ (if s.mMonoPathOpened then [CloseStep.closeMonoPath] else []), ?_⟩
    simp [closeStream, h1, h2]
  · intro rs
    show (routerIterate (applyAction (applyAction rs RouterAction.requestStop)
        RouterAction.closeChannels)).stopped = true
    exact routerIterate_stops_after_close rfl rfl rfl

/-- C8 witness: the freshly initialized interleave session emits
stopRouter strictly before disableProducers on closeStream, and the
concrete blocked router state exits after the stop protocol. -/
theorem closeStream_stops_router_before_producers_witness :
    (∃ rest, (closeStream (initStream initialSession 640 480 26 640 640).2).2.2
        = CloseStep.stopRouter :: CloseStep.disableProducers :: rest)
    ∧ (routerRun stalledExample [RouterAction.requestStop,
        RouterAction.closeChannels, RouterAction.iterate]).stopped = true := by
  exact ⟨closeStream_stops_router_before_producers.1 _ (by decide) (by decide),
         closeStream_stops_router_before_producers.2 stalledExample⟩

/-- Every quantized depth sample fits in 16 bits. -/
theorem zValue_le (focal d : ℚ) : zValue focal d ≤ 65535 := by
  unfold zValue quantizeZ
  have h := Nat.mod_lt (Int.toNat ⌊focal / d⌋) (y := 65536) (by norm_num)
  omega

/-- The byte table produced by the build loop is the spec-level layout
appended to whatever the accumulator already held. -/
theorem zd_foldl_table (focal : ℚ) (ds : List ℚ) :
    ∀ st : ZDState, (ds.foldl (zdStep focal) st).nZDTable
      = st.nZDTable ++ zdBytes focal ds := by
  induction ds with
  | nil =>
      intro st
      simp [zdBytes]
  | cons d rest ih =>
      intro st
      simp only [List.foldl_cons, zdBytes]
      rw [ih]
      simp [zdStep, List.append_assoc]

/-- The near bound produced by the build loop is the running minimum of
the depth samples. -/
theorem zd_foldl_near (focal : ℚ) (ds : List ℚ) :
    ∀ st : ZDState, (ds.foldl (zdStep focal) st).nZNear
      = (ds.map (zValue focal)).foldl min st.nZNear := by
  induction ds with
  | nil => intro st; rfl
  | cons d rest ih =>
      intro st
      simp only [List.foldl_cons, List.map_cons]
      rw [ih]
      rfl

/-- The far bound produced by the build loop is the running maximum of
the depth samples. -/
theorem zd_foldl_far (focal : ℚ) (ds : List ℚ) :
    ∀ st : ZDState, (ds.foldl (zdStep focal) st).nZFar
      = (ds.map (zValue focal)).foldl max st.nZFar := by
  induction ds with
  | nil => intro st; rfl
  | cons d rest ih =>
      intro st
      simp only [List.foldl_cons, List.map_cons]
      rw [ih]
      rfl

/-- The spec-level byte table is twice as long as the sample list. -/
theorem zdBytes_length (focal : ℚ) :
    ∀ ds : List ℚ, (zdBytes focal ds).length = 2 * ds.length := by
  intro ds
  induction ds with
  | nil => rfl
  | cons d rest ih =>
      simp only [zdBytes, List.length_cons, ih]
      omega

/-- The even positions of the spec-level byte table hold the high bytes
of the depth samples. -/
theorem zdBytes_get_hi (focal : ℚ) :
    ∀ (ds : List ℚ) (i : Nat),
      (zdBytes focal ds).get? (2 * i)
        = (ds.get? i).map (fun d => zValue focal d / 256) := by
  intro ds
  induction ds with
  | nil => intro i; rfl
  | cons d rest ih =>
      intro i
      cases i with
      | zero => rfl
      | succ j =>
          have h2 : 2 * (j + 1) = 2 * j + 1 + 1 := by ring
          rw [h2]
          simp only [zdBytes, List.get?_cons_succ]
          exact ih j

/-- The odd positions of the spec-level byte table hold the low bytes
of the depth samples. -/
theorem zdBytes_get_lo (focal : ℚ) :
    ∀ (ds : List ℚ) (i : Nat),
      (zdBytes focal ds).get? (2 * i + 1)
        = (ds.get? i).map (fun d => zValue focal d % 256) := by
  intro ds
  induction ds with
  | nil => intro i; rfl
  | cons d rest ih =>
      intro i
      cases i with
      | zero => rfl
      | succ j =>
          have h2 : 2 * (j + 1) + 1 = 2 * j + 1 + 1 + 1 := by ring
          rw [h2]
          simp only [zdBytes, List.get?_cons_succ]
          exact ih j

/-- A left fold by min ends at its seed or at a list element. -/
theorem foldl_min_choice :
    ∀ (l : List Nat) (a : Nat), l.foldl min a = a ∨ l.foldl min a ∈ l := by
  intro l
  induction l with
  | nil => intro a; left; rfl
  | cons x t ih =>
      intro a
      rcases ih (min a x) with h | h
      · rcases min_choice a x with h2 | h2
        · left
          rw [List.foldl_cons, h, h2]
        · right
          rw [List.foldl_cons, h, h2]
          exact List.mem_cons_self x t
      · right
        rw [List.foldl_cons]
        exact List.mem_cons_of_mem x h

/-- A left fold by min is below its seed. -/
theorem foldl_min_le_init (l : List Nat) : ∀ a : Nat, l.foldl min a ≤ a := by
  induction l with
  | nil => intro a; exact le_refl a
  | cons x t ih =>
      intro a
      calc (x :: t).foldl min a = t.foldl min (min a x) := rfl
        _ ≤ min a x := ih (min a x)
        _ ≤ a := min_le_left a x

/-- A left fold by min is below every list element. -/
theorem foldl_min_le (l : List Nat) :
    ∀ (a : Nat), ∀ x ∈ l, l.foldl min a ≤ x := by
  induction l with
  | nil =>
      intro a x hx
      simp at hx
  | cons y t ih =>
      intro a x hx
      rcases List.mem_cons.mp hx with h | h
      · subst h
        calc (x :: t).foldl min a = t.foldl min (min a x) := rfl
          _ ≤ min a x := foldl_min_le_init t (min a x)
          _ ≤ x := min_le_right a x
      · exact ih (min a y) x h

/-- A left fold by max ends at its seed or at a list element. -/
theorem foldl_max_choice :
    ∀ (l : List Nat) (a : Nat), l.foldl max a = a ∨ l.foldl max a ∈ l := by
  intro l
  induction l with
  | nil => intro a; left; rfl
  | cons x t ih =>
      intro a
      rcases ih (max a x) with h | h
      · rcases max_choice a x with h2 | h2
        · left
          rw [List.foldl_cons, h, h2]
        · right
          rw [List.foldl_cons, h, h2]
          exact List.mem_cons_self x t
      · right
        rw [List.foldl_cons]
        exact List.mem_cons_of_mem x h

/-- A left fold by max is above its seed. -/
theorem foldl_max_ge_init (l : List Nat) : ∀ a : Nat, a ≤ l.foldl max a := by
  induction l with
  | nil => intro a; exact le_refl a
  | cons x t ih =>
      intro a
      calc a ≤ max a x := le_max_left a x
        _ ≤ t.foldl max (max a x) := ih (max a x)
        _ = (x :: t).foldl max a := rfl

/-- A left fold by max is above every list element. -/
theorem foldl_max_ge (l : List Nat) :
    ∀ (a : Nat), ∀ x ∈ l, x ≤ l.foldl max a := by
  induction l with
  | nil =>
      intro a x hx
      simp at hx
  | cons y t ih =>
      intro a x hx
      rcases List.mem_cons.mp hx with h | h
      · subst h
        calc x ≤ max a x := le_max_right a x
          _ ≤ t.foldl max (max a x) := foldl_max_ge_init t (max a x)
          _ = (x :: t).foldl max a := rfl
      · exact ih (max a y) x h

/-- The min fold seeded with the 16-bit ceiling lands on a member of a
nonempty list of 16-bit values. -/
theorem foldl_min_mem_of_bound (zs : List Nat) (hne : zs ≠ [])
    (hb : ∀ z ∈ zs, z ≤ 65535) : zs.foldl min 65535 ∈ zs := by
  rcases foldl_min_choice zs 65535 with h | h
  · obtain ⟨z, hz⟩ := List.exists_mem_of_ne_nil zs hne
    have hle := foldl_min_le zs 65535 z hz
    have heq : zs.foldl min 65535 = z := by
      have := hb z hz
      omega
    rw [heq]
    exact hz
  · exact h

/-- The max fold seeded with zero lands on a member of a nonempty
list. -/
theorem foldl_max_mem (zs : List Nat) (hne : zs ≠ []) :
    zs.foldl max 0 ∈ zs := by
  rcases foldl_max_choice zs 0 with h | h
  · obtain ⟨z, hz⟩ := List.exists_mem_of_ne_nil zs hne
    have hge := foldl_max_ge zs 0 z hz
    have heq : zs.foldl max 0 = z := by omega
    rw [heq]
    exact hz
  · exact h

/-- C6: the ZD table build computes, for disparity samples that are all
nonzero, one Z sample per disparity value as focal length over
disparity, stores each sample as two bytes high byte first (big-endian
16-bit), and derives nZNear as the minimum and nZFar as the maximum
over the produced samples; with no calibration data it returns the
distinct no-calibration-data failure code with the cleared table, and
with a zero disparity sample it fails with the distinct malformed-data
code instead of producing a garbage entry. -/
theorem updateZDTable_spec (focal : ℚ) (ds : List ℚ) (h : ds ≠ [])
    (hz : (0 : ℚ) ∉ ds) :
    (updateZDTable focal []).1 = APC_NO_CALIBRATION_LOG
    ∧ (updateZDTable focal []).2.nZDTable = []
    ∧ (∀ es : List ℚ, (0 : ℚ) ∈ es →
        (updateZDTable focal es).1 = APC_ILLEGAL_DATA
        ∧ (updateZDTable focal es).2.nZDTable = [])
    ∧ APC_NO_CALIBRATION_LOG ≠ APC_OK
    ∧ APC_ILLEGAL_DATA ≠ APC_OK
    ∧ APC_ILLEGAL_DATA ≠ APC_NO_CALIBRATION_LOG
    ∧ (updateZDTable focal ds).1 = APC_OK
    ∧ (updateZDTable focal ds).2.nZDTable.length = 2 * ds.length
    ∧ (∀ i : Nat, (updateZDTable focal ds).2.nZDTable.get? (2 * i)
        = (ds.get? i).map (fun d => zValue focal d / 256))
    ∧ (∀ i : Nat, (updateZDTable focal ds).2.nZDTable.get? (2 * i + 1)
        = (ds.get? i).map (fun d => zValue focal d % 256))
    ∧ (updateZDTable focal ds).2.nZNear ∈ ds.map (zValue focal)
    ∧ (∀ z ∈ ds.map (zValue focal), (updateZDTable focal ds).2.nZNear ≤ z)
    ∧ (updateZDTable focal ds).2.nZFar ∈ ds.map (zValue focal)
    ∧ (∀ z ∈ ds.map (zValue focal), z ≤ (updateZDTable focal ds).2.nZFar) := by
  have hni : ds.isEmpty = false := by
    cases ds with
    | nil => exact absurd rfl h
    | cons a t => rfl
  have hpair : updateZDTable focal ds
      = (APC_OK, ds.foldl (zdStep focal) zdInit) := by
    unfold updateZDTable
    rw [if_neg (by simp [hni]), if_neg hz]
  have htab : (updateZDTable focal ds).2.nZDTable = zdBytes focal ds := by
    rw [hpair]
    show (ds.foldl (zdStep focal) zdInit).nZDTable = zdBytes focal ds
    rw [zd_foldl_table]
    rfl
  have hnear : (updateZDTable focal ds).2.nZNear
      = (ds.map (zValue focal)).foldl min 65535 := by
    rw [hpair]
    show (ds.foldl (zdStep focal) zdInit).nZNear = _
    rw [zd_foldl_near]
    rfl
  have hfar : (updateZDTable focal ds).2.nZFar
      = (ds.map (zValue focal)).foldl max 0 := by
    rw [hpair]
    show (ds.foldl (zdStep focal) zdInit).nZFar = _
    rw [zd_foldl_far]
    rfl
  have hmapne : ds.map (zValue focal) ≠ [] := by
    intro hm
    exact h (List.map_eq_nil_iff.mp hm)
  have hbound : ∀ z ∈ ds.map (zValue focal), z ≤ 65535 := by
    intro z hz2
    obtain ⟨d, -, rfl⟩ := List.mem_map.mp hz2
    exact zValue_le focal d
  refine ⟨rfl, rfl, ?_, by decide, by decide, by decide, ?_, ?_, ?_, ?_, ?_, ?_, ?_, ?_⟩
  · intro es hes
    have hene : es.isEmpty = false := by
      cases es with
      | nil => simp at hes
      | cons a t => rfl
    constructor
    · unfold updateZDTable
      rw [if_neg (by simp [hene]), if_pos hes]
    · unfold updateZDTable
      rw [if_neg (by simp [hene]), if_pos hes]
      rfl
  · rw [hpair]
  · rw [htab, zdBytes_length]
  · intro i
    rw [htab]
    exact zdBytes_get_hi focal ds i
  · intro i
    rw [htab]
    exact zdBytes_get_lo focal ds i
  · rw [hnear]
    exact foldl_min_mem_of_bound (ds.map (zValue focal)) hmapne hbound
  · intro z hz
    rw [hnear]
    exact foldl_min_le (ds.map (zValue focal)) 65535 z hz
  · rw [hfar]
    exact foldl_max_mem (ds.map (zValue focal)) hmapne
  · intro z hz
    rw [hfar]
    exact foldl_max_ge (ds.map (zValue focal)) 0 z hz

/-- C6 witness: with a concrete focal length and three nonzero
disparity samples the build succeeds with a six-byte table, with the
empty calibration source it returns the no-calibration-data code with
the cleared table, and with a zero disparity sample it returns the
distinct malformed-data code with the cleared table. -/
theorem updateZDTable_spec_witness :
    ([1, 2, 3] : List ℚ) ≠ []
    ∧ (0 : ℚ) ∉ ([1, 2, 3] : List ℚ)
    ∧ (updateZDTable 300 []).1 = APC_NO_CALIBRATION_LOG
    ∧ (updateZDTable 300 []).2.nZDTable = []
    ∧ (updateZDTable 300 [0]).1 = APC_ILLEGAL_DATA
    ∧ (updateZDTable 300 [0]).2.nZDTable = []
    ∧ (updateZDTable 300 [1, 2, 3]).1 = APC_OK
    ∧ (updateZDTable 300 [1, 2, 3]).2.nZDTable.length = 6 := by
  have hs := updateZDTable_spec 300 [1, 2, 3] (by simp) (by norm_num)
  have hzero := hs.2.2.1 [0] (by simp)
  exact ⟨by simp, by norm_num, hs.1, hs.2.1, hzero.1, hzero.2,
         hs.2.2.2.2.2.2.1, hs.2.2.2.2.2.2.2.1⟩

end libeYs3D
